import Mathlib

/-!
Verification development for the OptiSign dashboard's client-side data
pipeline (monthly aggregation, route-key mapping, dataset construction,
palette cycling, table rendering).

The JavaScript source exists in two variants:
* named modules `js/chart_utilities.js`, `js/data_aggregation.js`,
  `js/table_renderer.js` (suffix `_cu` / `_js` below), and
* a monolithic script (`part_000`, suffix `_p0`) plus a module variant of
  the dataset builder (`part_001`, suffix `_p1`).

Modelling conventions:
* JS `Date` values parsed from `YYYY-MM-DD` strings are represented
  structurally as year/month/day; the runtime is assumed to be in the UTC
  timezone (so `getFullYear`/`getMonth` agree with the parsed fields).
  `new Date(a) - new Date(b)` comparisons become lexicographic comparison
  of (linear month, day).
* JS numbers on the data path are rationals (the claims under study do not
  depend on floating-point rounding).
* JS objects holding data fields are association lists; `obj[key]` is
  `List.lookup`, with `none` playing the role of `undefined`.
* `Array.prototype.sort` is stable (ES2019), so any stable sort computes
  the same list; we use `List.insertionSort`, which is stable.
* The module-level palette counter is passed explicitly as state.
-/

namespace OptiSign

/-- A calendar date as parsed from a `YYYY-MM-DD` string (month is 1-12 in
valid data; the year is an integer since JS month arithmetic can cross
year 0). -/
structure Date where
  y : Int
  m : Nat
  d : Nat
deriving DecidableEq, Repr

/-- Linear month index (`year * 12 + monthIndex`), the key quantity in the
JS month arithmetic (`getFullYear`/`getMonth`/`setMonth`). -/
def Date.lm (t : Date) : Int := t.y * 12 + ((t.m : Int) - 1)

/-- `new Date(a) - new Date(b) <= 0`: dates compare lexicographically by
(year, month, day), i.e. by (linear month, day). -/
def dateLe (a b : Date) : Prop := a.lm < b.lm ∨ (a.lm = b.lm ∧ a.d ≤ b.d)

instance : DecidableRel dateLe := fun a b => by
  unfold dateLe; infer_instance

/-- The date with linear month `t` and day `d`, with year/month recovered
by floored division as JS month normalization does. -/
def Date.ofLm (t : Int) (d : Nat) : Date := ⟨t / 12, (t % 12).toNat + 1, d⟩

theorem Date.ofLm_lm (t : Int) (d : Nat) : (Date.ofLm t d).lm = t := by
  have h0 : 0 ≤ t % 12 := by omega
  have h1 : ((t % 12).toNat : Int) = t % 12 := Int.toNat_of_nonneg h0
  simp only [Date.ofLm, Date.lm]
  omega

/-- A nullable numeric field value of a time-series record (the JSON
artifact holds numbers or `null` in these positions). -/
inductive FieldVal where
  | null : FieldVal
  | num : ℚ → FieldVal
deriving DecidableEq, Repr

/-- One `TimeSeriesRecord`: a date plus named nullable numeric fields
(the JS object's non-`date` properties, as an association list). -/
structure RawRec where
  date : Date
  fields : List (String × FieldVal)
deriving DecidableEq, Repr

/-- Comparator used by every `data.sort((a, b) => new Date(a.date) - new
Date(b.date))` call in the repository. -/
def recLe (a b : RawRec) : Prop := dateLe a.date b.date

instance : DecidableRel recLe := fun a b => by
  unfold recLe; infer_instance

/-! ### Palette cyclers

`js/chart_utilities.js` lines 6-65 (`_cu`) and `part_000` lines 119-150
(`_p0`). The counter is the module-level `colorIndex`, passed explicitly.
JS `%` on integers is truncating remainder, i.e. `Int.tmod`; a negative
or out-of-range array index yields `undefined`, i.e. `none`. -/

/-- JS array indexing `arr[k]` for an integer index: `undefined` (`none`)
when out of range, including negative indices. -/
def jsIndex (arr : List String) (k : Int) : Option String :=
  if h : 0 ≤ k ∧ k.toNat < arr.length then some (arr.get ⟨k.toNat, h.2⟩) else none

/-- `CHART_COLORS` from `js/chart_utilities.js`. -/
def CHART_COLORS : List String :=
  ["rgb(255, 99, 132)", "rgb(54, 162, 235)", "rgb(255, 205, 86)",
   "rgb(75, 192, 192)", "rgb(153, 102, 255)", "rgb(255, 159, 64)",
   "rgb(201, 203, 207)", "rgb(255, 99, 255)", "rgb(99, 255, 132)",
   "rgb(132, 99, 255)", "rgb(255, 132, 99)", "rgb(99, 132, 255)"]

/-- `CHART_BORDER_COLORS` from `js/chart_utilities.js` (identical entries
to `CHART_COLORS`). -/
def CHART_BORDER_COLORS : List String :=
  ["rgb(255, 99, 132)", "rgb(54, 162, 235)", "rgb(255, 205, 86)",
   "rgb(75, 192, 192)", "rgb(153, 102, 255)", "rgb(255, 159, 64)",
   "rgb(201, 203, 207)", "rgb(255, 99, 255)", "rgb(99, 255, 132)",
   "rgb(132, 99, 255)", "rgb(255, 132, 99)", "rgb(99, 132, 255)"]

/-- `getNextColor` (`js/chart_utilities.js:43-47`): returns
`CHART_COLORS[colorIndex % length]` and increments the counter. -/
def getNextColor_cu (counter : Nat) : Option String × Nat :=
  (jsIndex CHART_COLORS ((counter : Int).tmod (CHART_COLORS.length : Int)), counter + 1)

/-- `getNextBorderColor` (`js/chart_utilities.js:53-57`): returns
`CHART_BORDER_COLORS[(colorIndex - 1) % length]`; does not touch the
counter. -/
def getNextBorderColor_cu (counter : Nat) : Option String :=
  jsIndex CHART_BORDER_COLORS (((counter : Int) - 1).tmod (CHART_BORDER_COLORS.length : Int))

/-- `resetColorIndex` (`js/chart_utilities.js:63-65`). -/
def resetColorIndex_cu : Nat := 0

/-- `colors` from `part_000` lines 119-128. -/
def colors_p0 : List String :=
  ["rgba(0, 101, 126, 0.8)", "rgba(0, 58, 82, 0.8)", "rgba(40, 167, 69, 0.8)",
   "rgba(253, 126, 20, 0.8)", "rgba(111, 66, 193, 0.8)", "rgba(220, 53, 69, 0.8)",
   "rgba(23, 162, 184, 0.8)", "rgba(108, 117, 125, 0.8)"]

/-- `borderColors` from `part_000` lines 130-139 (hue-by-hue companions of
`colors_p0`). -/
def borderColors_p0 : List String :=
  ["#00657e", "#003A52", "#218838", "#e68a00", "#5a32b2", "#c82333",
   "#138496", "#6c757d"]

/-- `getNextColor` (`part_000:142-146`). -/
def getNextColor_p0 (counter : Nat) : Option String × Nat :=
  (jsIndex colors_p0 ((counter : Int).tmod (colors_p0.length : Int)), counter + 1)

/-- `getNextBorderColor` (`part_000:147-150`): note the index is
`colorIndex % length`, not `(colorIndex - 1) % length`. -/
def getNextBorderColor_p0 (counter : Nat) : Option String :=
  jsIndex borderColors_p0 ((counter : Int).tmod (borderColors_p0.length : Int))

/-- Counter value after `n` calls to `getNextColor` starting from a fresh
(or reset) module state. -/
def counterAfter_cu (n : Nat) : Nat := (fun s => (getNextColor_cu s).2)^[n] 0

/-- Counter value after `n` calls to `part_000`'s `getNextColor` starting
from a fresh state. -/
def counterAfter_p0 (n : Nat) : Nat := (fun s => (getNextColor_p0 s).2)^[n] 0

theorem counterAfter_cu_eq (n : Nat) : counterAfter_cu n = n := by
  induction n with
  | zero => rfl
  | succ k ih =>
      unfold counterAfter_cu at *
      rw [Function.iterate_succ_apply', ih]
      rfl

theorem counterAfter_p0_eq (n : Nat) : counterAfter_p0 n = n := by
  induction n with
  | zero => rfl
  | succ k ih =>
      unfold counterAfter_p0 at *
      rw [Function.iterate_succ_apply', ih]
      rfl

theorem jsIndex_ofNat (arr : List String) (k : Nat) :
    jsIndex arr (k : Int) = arr.get? k := by
  unfold jsIndex
  by_cases h : k < arr.length
  · have hk : ((k : Int)).toNat = k := Int.toNat_natCast k
    rw [dif_pos ⟨Int.ofNat_nonneg k, by simpa [hk] using h⟩, List.get?_eq_get h]
    simp [hk]
  · rw [dif_neg, eq_comm, List.get?_eq_none]
    · omega
    · intro hc
      apply h
      have := hc.2
      simpa using this

theorem jsIndex_natMod (arr : List String) (i : Nat) :
    jsIndex arr ((i : Int).tmod (arr.length : Int)) = arr.get? (i % arr.length) := by
  have htm : (i : Int).tmod (arr.length : Int) = ((i % arr.length : Nat) : Int) := by
    rw [Int.tmod_eq_emod (Int.ofNat_nonneg i) (Int.ofNat_nonneg arr.length)]
    omega
  rw [htm, jsIndex_ofNat]

/-- C8: for every `n ≥ 1`, the `n`-th call to `getNextColor` after a fresh
start (no intervening reset) returns `palette[(n-1) mod paletteSize]`, in
both the `chart_utilities.js` and the `part_000` cycler; and after
`resetColorIndex` the next call returns `palette[0]` again. -/
theorem paletteCycler_nth_and_reset (n : Nat) (h : 1 ≤ n) :
    (getNextColor_cu (counterAfter_cu (n - 1))).1
        = CHART_COLORS.get? ((n - 1) % CHART_COLORS.length)
    ∧ (getNextColor_cu resetColorIndex_cu).1 = CHART_COLORS.get? 0
    ∧ (getNextColor_p0 (counterAfter_p0 (n - 1))).1
        = colors_p0.get? ((n - 1) % colors_p0.length)
    ∧ (getNextColor_p0 0).1 = colors_p0.get? 0 := by
  refine ⟨?_, by decide, ?_, by decide⟩
  · rw [counterAfter_cu_eq]
    exact jsIndex_natMod CHART_COLORS (n - 1)
  · rw [counterAfter_p0_eq]
    exact jsIndex_natMod colors_p0 (n - 1)

/-- Witness for C8 at `n = 14` (one full cycle plus two): the 14th call
returns the palette entry at index `13 mod 12 = 1`. -/
theorem paletteCycler_nth_and_reset_witness :
    1 ≤ 14
    ∧ ((getNextColor_cu (counterAfter_cu (14 - 1))).1
          = CHART_COLORS.get? ((14 - 1) % CHART_COLORS.length)
        ∧ (getNextColor_cu resetColorIndex_cu).1 = CHART_COLORS.get? 0
        ∧ (getNextColor_p0 (counterAfter_p0 (14 - 1))).1
            = colors_p0.get? ((14 - 1) % colors_p0.length)
        ∧ (getNextColor_p0 0).1 = colors_p0.get? 0)
    ∧ (getNextColor_cu 13).1 = some "rgb(54, 162, 235)" :=
  ⟨by decide, paletteCycler_nth_and_reset 14 (by decide), by decide⟩

/-- C10: calling `getNextBorderColor` from `js/chart_utilities.js` while
the counter is `0` (fresh module state, or right after `resetColorIndex`)
computes the JS index `(0 - 1) % 12 = -1` and therefore returns
`undefined` (`none`), not a color. -/
theorem getNextBorderColor_cu_at_zero :
    getNextBorderColor_cu resetColorIndex_cu = none
    ∧ ((resetColorIndex_cu : Int) - 1).tmod (CHART_BORDER_COLORS.length : Int) = -1 := by
  decide

/-- C5 (code evaluated at the failing input): after a single
`getNextColor` call the counter is `1`; `part_000`'s `getNextBorderColor`
then returns `borderColors[1]`, the border paired with the NEXT fill
color, not `borderColors[0]` paired with the fill color just issued —
whereas the `chart_utilities.js` variant returns index `counter - 1 = 0`
as the specification states. -/
theorem getNextBorderColor_p0_mispairs :
    (getNextColor_p0 0).1 = colors_p0.get? 0
    ∧ (getNextColor_p0 0).2 = 1
    ∧ getNextBorderColor_p0 1 = borderColors_p0.get? 1
    ∧ getNextBorderColor_p0 1 ≠ borderColors_p0.get? 0
    ∧ getNextBorderColor_cu 1 = CHART_BORDER_COLORS.get? 0 := by
  decide

/-! ### Table rows and datasets -/

/-- A JSON cell value as found in `TableRow` positions (`current_index`
is a number or the empty string; other cells may be `null`). -/
inductive CellVal where
  | null : CellVal
  | num : ℚ → CellVal
  | str : String → CellVal
deriving DecidableEq, Repr

/-- The `weekly_change` object of a `TableRow`. -/
structure WeeklyChange where
  value : CellVal
  percentage : CellVal
  color_class : CellVal
deriving DecidableEq, Repr

/-- One table row from `table_data` (`route` is
`<SectionPrefix>_<RouteLabel>`). -/
structure TableRow where
  route : String
  current_index : CellVal
  previous_index : CellVal
  weekly_change : WeeklyChange
deriving DecidableEq, Repr

/-- `s.split('_')` on the character list of a JS string: splitting on a
single character, keeping empty segments, `[""]` for the empty string. -/
def splitOnChar (c : Char) : List Char → List (List Char)
  | [] => [[]]
  | a :: rest =>
    let r := splitOnChar c rest
    if a = c then [] :: r
    else
      match r with
      | [] => [[a]]
      | g :: gs => (a :: g) :: gs

/-- `row.route.split('_').slice(1).join('_')`: strip the section name
before the first underscore. -/
def routeDisplayName (s : String) : String :=
  "_".intercalate (((splitOnChar '_' s.data).map String.mk).drop 1)

/-- JS `String.prototype.includes`: substring occurrence. -/
def jsIncludes (s pat : String) : Bool :=
  s.data.tails.any (fun t => pat.data.isPrefixOf t)

/-- One chart point `{x, y}` before/after null-filtering; `y` is
`item[dataKey]`, so it can be a number, `null`, or `undefined` (`none`). -/
structure ChartPoint where
  x : Date
  y : Option FieldVal
deriving DecidableEq, Repr

/-- A chart dataset as pushed by `createDatasetsFromTableRows`. -/
structure Dataset where
  label : String
  data : List ChartPoint
  backgroundColor : Option String
  borderColor : Option String
  borderWidth : Nat
  fill : Bool
deriving DecidableEq, Repr

/-- Diagnostic-channel events emitted by the dataset builder. -/
inductive LogEvent where
  | warnNoMapping (indexType : String)
  | warnNoValidPoints (indexType routeName dataKey : String)
  | infoNullSkip (indexType route : String)
  | warnNoKeyOrEmpty (indexType route : String)
deriving DecidableEq, Repr

/-- `routeToDataKeyMap` from `part_001` lines 20-105 (values are the
transliterated/Korean prefixed field names). Map values are `some _`
throughout; a hypothetical explicit `null` mapping would be `none`. -/
def routeToDataKeyMap_p1 : List (String × List (String × Option String)) :=
  [("KCCI",
    [("종합지수", some "KCCI_종합지수"), ("미주서안", some "KCCI_미주서안"),
     ("미주동안", some "KCCI_미주동안"), ("유럽", some "KCCI_유럽"),
     ("지중해", some "KCCI_지중해"), ("중동", some "KCCI_중동"),
     ("호주", some "KCCI_호주"), ("남미동안", some "KCCI_남미동안"),
     ("남미서안", some "KCCI_남미서안"), ("남아프리카", some "KCCI_남아프리카"),
     ("서아프리카", some "KCCI_서아프리카"), ("중국", some "KCCI_중국"),
     ("일본", some "KCCI_일본"), ("동남아시아", some "KCCI_동남아시아")]),
   ("SCFI",
    [("종합지수", some "SCFI_종합지수"), ("유럽 (기본항)", some "SCFI_유럽 (기본항)"),
     ("지중해 (기본항)", some "SCFI_지중해 (기본항)"),
     ("미주서안 (기본항)", some "SCFI_미주서안 (기본항)"),
     ("미주동안 (기본항)", some "SCFI_미주동안 (기본항)"),
     ("페르시아만/홍해 (두바이)", some "SCFI_페르시아만/홍해 (두바이)"),
     ("호주/뉴질랜드 (멜버른)", some "SCFI_호주/뉴질랜드 (멜버른)"),
     ("동/서 아프리카 (라고스)", some "SCFI_동/서 아프리카 (라고스)"),
     ("남아프리카 (더반)", some "SCFI_남아프리카 (더반)"),
     ("서일본 (기본항)", some "SCFI_서일본 (기본항)"),
     ("동일본 (기본항)", some "SCFI_동일본 (기본항)"),
     ("동남아시아 (싱가포르)", some "SCFI_동남아시아 (싱가포르)"),
     ("한국 (부산)", some "SCFI_한국 (부산)"),
     ("중남미서안 (만사니요)", some "SCFI_중남미서안 (만사니요)")]),
   ("WCI",
    [("종합지수", some "WCI_종합지수"),
     ("상하이 → 로테르담", some "WCI_상하이 → 로테르담"),
     ("로테르담 → 상하이", some "WCI_로테르담 → 상하이"),
     ("상하이 → 제노바", some "WCI_상하이 → 제노바"),
     ("상하이 → 로스엔젤레스", some "WCI_상하이 → 로스엔젤레스"),
     ("로스엔젤레스 → 상하이", some "WCI_로스엔젤레스 → 상하이"),
     ("상하이 → 뉴욕", some "WCI_상하이 → 뉴욕"),
     ("뉴욕 → 로테르담", some "WCI_뉴욕 → 로테르담"),
     ("로테르담 → 뉴욕", some "WCI_로테르담 → 뉴욕")]),
   ("IACI", [("종합지수", some "IACI_종합지수")]),
   ("BLANK_SAILING",
    [("Gemini Cooperation", some "BLANK_SAILING_Gemini_Cooperation"),
     ("MSC", some "BLANK_SAILING_MSC"),
     ("OCEAN Alliance", some "BLANK_SAILING_OCEAN_Alliance"),
     ("Premier Alliance", some "BLANK_SAILING_Premier_Alliance"),
     ("Others/Independent", some "BLANK_SAILING_Others_Independent"),
     ("Total", some "BLANK_SAILING_종합지수")]),
   ("FBX",
    [("종합지수", some "FBX_종합지수"),
     ("중국/동아시아 → 미주서안", some "FBX_중국/동아시아 → 미주서안"),
     ("미주서안 → 중국/동아시아", some "FBX_미주서안 → 중국/동아시아"),
     ("중국/동아시아 → 미주동안", some "FBX_중국/동아시아 → 미주동안"),
     ("미주동안 → 중국/동아시아", some "FBX_미주동안 → 중국/동아시아"),
     ("중국/동아시아 → 북유럽", some "FBX_중국/동아시아 → 북유럽"),
     ("북유럽 → 중국/동아시아", some "FBX_북유럽 → 중국/동아시아"),
     ("중국/동아시아 → 지중해", some "FBX_중국/동아시아 → 지중해"),
     ("지중해 → 중국/동아시아", some "FBX_지중해 → 중국/동아시아"),
     ("미주동안 → 북유럽", some "FBX_미주동안 → 북유럽"),
     ("북유럽 → 미주동안", some "FBX_북유럽 → 미주동안"),
     ("유럽 → 남미동안", some "FBX_유럽 → 남미동안"),
     ("유럽 → 남미서안", some "FBX_유럽 → 남미서안")]),
   ("XSI",
    [("동아시아 → 북유럽", some "XSI_동아시아 → 북유럽"),
     ("북유럽 → 동아시아", some "XSI_북유럽 → 동아시아"),
     ("동아시아 → 미주서안", some "XSI_동아시아 → 미주서안"),
     ("미주서안 → 동아시아", some "XSI_미주서안 → 동아시아"),
     ("동아시아 → 남미동안", some "XSI_동아시아 → 남미동안"),
     ("북유럽 → 미주동안", some "XSI_북유럽 → 미주동안"),
     ("미주동안 → 북유럽", some "XSI_미주동안 → 북유럽"),
     ("북유럽 → 남미동안", some "XSI_북유럽 → 남미동안")]),
   ("MBCI", [("MBCI", some "MBCI_MBCI")])]

/-- `routeToDataKeyMap` from `part_000` lines 337-420 (values are the
English field names). -/
def routeToDataKeyMap_p0 : List (String × List (String × Option String)) :=
  [("KCCI",
    [("종합지수", some "KCCI_Composite_Index"), ("미주서안", some "KCCI_US_West_Coast"),
     ("미주동안", some "KCCI_US_East_Coast"), ("유럽", some "KCCI_Europe"),
     ("지중해", some "KCCI_Mediterranean"), ("중동", some "KCCI_Middle_East"),
     ("호주", some "KCCI_Australia"),
     ("남미동안", some "KCCI_South_America_East_Coast"),
     ("남미서안", some "KCCI_South_America_West_Coast"),
     ("남아프리카", some "KCCI_South_Africa"),
     ("서아프리카", some "KCCI_West_Africa"), ("중국", some "KCCI_China"),
     ("일본", some "KCCI_Japan"), ("동남아시아", some "KCCI_Southeast_Asia")]),
   ("SCFI",
    [("종합지수", some "SCFI_Composite_Index"), ("미주서안", some "SCFI_US_West_Coast"),
     ("미주동안", some "SCFI_US_East_Coast"), ("북유럽", some "SCFI_North_Europe"),
     ("지중해", some "SCFI_Mediterranean"), ("동남아시아", some "SCFI_Southeast_Asia"),
     ("중동", some "SCFI_Middle_East"),
     ("호주/뉴질랜드", some "SCFI_Australia_New_Zealand"),
     ("남아메리카", some "SCFI_South_America"),
     ("일본서안", some "SCFI_Japan_West_Coast"),
     ("일본동안", some "SCFI_Japan_East_Coast"), ("한국", some "SCFI_Korea"),
     ("동부/서부 아프리카", some "SCFI_East_West_Africa"),
     ("남아공", some "SCFI_South_Africa")]),
   ("WCI",
    [("종합지수", some "WCI_Composite_Index"),
     ("상하이 → 로테르담", some "WCI_Shanghai_Rotterdam"),
     ("로테르담 → 상하이", some "WCI_Rotterdam_Shanghai"),
     ("상하이 → 제노바", some "WCI_Shanghai_Genoa"),
     ("상하이 → 로스엔젤레스", some "WCI_Shanghai_Los_Angeles"),
     ("로스엔젤레스 → 상하이", some "WCI_Los_Angeles_Shanghai"),
     ("상하이 → 뉴욕", some "WCI_Shanghai_New_York"),
     ("뉴욕 → 로테르담", some "WCI_New_York_Rotterdam"),
     ("로테르담 → 뉴욕", some "WCI_Rotterdam_New_York")]),
   ("IACI", [("종합지수", some "IACI_Composite_Index")]),
   ("BLANK_SAILING",
    [("Gemini Cooperation", some "BLANK_SAILING_Gemini_Cooperation"),
     ("MSC", some "BLANK_SAILING_MSC"),
     ("OCEAN Alliance", some "BLANK_SAILING_OCEAN_Alliance"),
     ("Premier Alliance", some "BLANK_SAILING_Premier_Alliance"),
     ("Others/Independent", some "BLANK_SAILING_Others_Independent"),
     ("Total", some "BLANK_SAILING_Total")]),
   ("FBX",
    [("글로벌 컨테이너 운임 지수", some "FBX_Composite_Index"),
     ("중국/동아시아 → 미주서안", some "FBX_China_EA_US_West_Coast"),
     ("미주서안 → 중국/동아시아", some "FBX_US_West_Coast_China_EA"),
     ("중국/동아시아 → 미주동안", some "FBX_China_EA_US_East_Coast"),
     ("미주동안 → 중국/동아시아", some "FBX_US_East_Coast_China_EA"),
     ("중국/동아시아 → 북유럽", some "FBX_China_EA_North_Europe"),
     ("북유럽 → 중국/동아시아", some "FBX_North_Europe_China_EA"),
     ("중국/동아시아 → 지중해", some "FBX_China_EA_Mediterranean"),
     ("지중해 → 중국/동아시아", some "FBX_Mediterranean_China_EA"),
     ("미주동안 → 북유럽", some "FBX_US_East_Coast_North_Europe"),
     ("북유럽 → 미주동안", some "FBX_North_Europe_US_East_Coast"),
     ("유럽 → 남미동안", some "FBX_Europe_South_America_East_Coast"),
     ("유럽 → 남미서안", some "FBX_Europe_South_America_West_Coast")]),
   ("XSI",
    [("동아시아 → 북유럽", some "XSI_East_Asia_North_Europe"),
     ("북유럽 → 동아시아", some "XSI_North_Europe_East_Asia"),
     ("동아시아 → 미주서안", some "XSI_East_Asia_US_West_Coast"),
     ("미주서안 → 동아시아", some "XSI_US_West_Coast_East_Asia"),
     ("동아시아 → 남미동안", some "XSI_East_Asia_South_America_East_Coast"),
     ("북유럽 → 미주동안", some "XSI_North_Europe_US_East_Coast"),
     ("미주동안 → 북유럽", some "XSI_US_East_Coast_North_Europe"),
     ("북유럽 → 남미동안", some "XSI_North_Europe_South_America_East_Coast")]),
   ("MBCI", [("MBCI", some "MBCI_Value")])]

/-- The thick-line "composite/total" marker test in `part_001` line 144. -/
def isComposite_p1 (name : String) : Bool :=
  jsIncludes name "종합지수" || jsIncludes name "글로벌 컨테이너 운임 지수"
    || jsIncludes name "US$/40ft" || jsIncludes name "MBCI" || jsIncludes name "Total"

/-- The thick-line "composite/total" marker test in `part_000` line 449. -/
def isComposite_p0 (name : String) : Bool :=
  jsIncludes name "종합지수" || jsIncludes name "글로벌 컨테이너 운임 지수"
    || jsIncludes name "US$/40ft" || jsIncludes name "Index(종합지수)"

/-- The point filter `point => point.y !== null && point.y !== undefined`
used by both dataset builders. -/
def keepPoint (p : ChartPoint) : Bool := decide (p.y ≠ some FieldVal.null ∧ p.y ≠ none)

/-- The body of `tableRows.forEach(row => ...)` in `part_001`'s
`createDatasetsFromTableRows` (lines 116-155). `st` is the module-level
palette counter; the result is the new counter, the optionally-pushed
dataset, and the console events. In the push, `backgroundColor:
getNextColor()` is evaluated before `borderColor: getNextBorderColor()`,
so the border lookup sees the incremented counter. -/
def processRow_p1 (st : Nat) (indexType : String)
    (mapping : List (String × Option String)) (chartData : List RawRec)
    (row : TableRow) : Nat × Option Dataset × List LogEvent :=
  let name := routeDisplayName row.route
  match mapping.lookup name with
  | some (some dataKey) =>
      if row.current_index = CellVal.str "" then
        (st, none, [LogEvent.warnNoKeyOrEmpty indexType row.route])
      else
        let mapped := chartData.map (fun item => ChartPoint.mk item.date (item.fields.lookup dataKey))
        let filtered := mapped.filter keepPoint
        if filtered.length > 0 then
          (st + 1,
           some (Dataset.mk name filtered (getNextColor_cu st).1
             (getNextBorderColor_cu (st + 1)) (if isComposite_p1 name then 2 else 1) false),
           [])
        else
          (st, none, [LogEvent.warnNoValidPoints indexType name dataKey])
  | some none => (st, none, [LogEvent.infoNullSkip indexType row.route])
  | none => (st, none, [LogEvent.warnNoKeyOrEmpty indexType row.route])

/-- The body of `tableRows.forEach(row => ...)` in `part_000`'s
`createDatasetsFromTableRows` (lines 430-460), which uses `part_000`'s
own palette and composite-marker test. -/
def processRow_p0 (st : Nat) (indexType : String)
    (mapping : List (String × Option String)) (chartData : List RawRec)
    (row : TableRow) : Nat × Option Dataset × List LogEvent :=
  let name := routeDisplayName row.route
  match mapping.lookup name with
  | some (some dataKey) =>
      if row.current_index = CellVal.str "" then
        (st, none, [LogEvent.warnNoKeyOrEmpty indexType row.route])
      else
        let mapped := chartData.map (fun item => ChartPoint.mk item.date (item.fields.lookup dataKey))
        let filtered := mapped.filter keepPoint
        if filtered.length > 0 then
          (st + 1,
           some (Dataset.mk name filtered (getNextColor_p0 st).1
             (getNextBorderColor_p0 (st + 1)) (if isComposite_p0 name then 2 else 1) false),
           [])
        else
          (st, none, [LogEvent.warnNoValidPoints indexType name dataKey])
  | some none => (st, none, [LogEvent.infoNullSkip indexType row.route])
  | none => (st, none, [LogEvent.warnNoKeyOrEmpty indexType row.route])

/-- The `forEach` loop of `part_001`'s dataset builder, accumulating the
`datasets` array in row order and threading the palette counter. -/
def buildRows_p1 (indexType : String) (mapping : List (String × Option String))
    (chartData : List RawRec) : Nat → List TableRow → List Dataset × Nat × List LogEvent
  | st, [] => ([], st, [])
  | st, row :: rest =>
    let r1 := processRow_p1 st indexType mapping chartData row
    let r2 := buildRows_p1 indexType mapping chartData r1.1 rest
    (r1.2.1.toList ++ r2.1, r2.2.1, r1.2.2 ++ r2.2.2)

/-- The `forEach` loop of `part_000`'s dataset builder. -/
def buildRows_p0 (indexType : String) (mapping : List (String × Option String))
    (chartData : List RawRec) : Nat → List TableRow → List Dataset × Nat × List LogEvent
  | st, [] => ([], st, [])
  | st, row :: rest =>
    let r1 := processRow_p0 st indexType mapping chartData row
    let r2 := buildRows_p0 indexType mapping chartData r1.1 rest
    (r1.2.1.toList ++ r2.1, r2.2.1, r1.2.2 ++ r2.2.2)

/-- `createDatasetsFromTableRows` from `part_001` (lines 108-157). -/
def createDatasetsFromTableRows_p1 (indexType : String) (chartData : List RawRec)
    (tableRows : List TableRow) (st : Nat) : List Dataset × Nat × List LogEvent :=
  match routeToDataKeyMap_p1.lookup indexType with
  | none => ([], st, [LogEvent.warnNoMapping indexType])
  | some mapping => buildRows_p1 indexType mapping chartData st tableRows

/-- `createDatasetsFromTableRows` from `part_000` (lines 422-462). -/
def createDatasetsFromTableRows_p0 (indexType : String) (chartData : List RawRec)
    (tableRows : List TableRow) (st : Nat) : List Dataset × Nat × List LogEvent :=
  match routeToDataKeyMap_p0.lookup indexType with
  | none => ([], st, [LogEvent.warnNoMapping indexType])
  | some mapping => buildRows_p0 indexType mapping chartData st tableRows

theorem processRow_p1_some_nonempty (st : Nat) (it : String)
    (mapping : List (String × Option String)) (cd : List RawRec) (row : TableRow)
    (d : Dataset) (h : (processRow_p1 st it mapping cd row).2.1 = some d) :
    d.data ≠ [] := by
  rcases hm : mapping.lookup (routeDisplayName row.route) with _ | ov
  · simp only [processRow_p1, hm] at h
    exact Option.noConfusion h
  · rcases ov with _ | dataKey
    · simp only [processRow_p1, hm] at h
      exact Option.noConfusion h
    · simp only [processRow_p1, hm] at h
      by_cases h1 : row.current_index = CellVal.str ""
      · rw [if_pos h1] at h
        exact Option.noConfusion h
      · rw [if_neg h1] at h
        by_cases h2 : (List.filter keepPoint
            (List.map (fun item => ChartPoint.mk item.date (item.fields.lookup dataKey)) cd)).length > 0
        · rw [if_pos h2] at h
          have hx := Option.some.inj h
          subst hx
          intro hnil
          exact absurd hnil (List.length_pos.mp h2)
        · rw [if_neg h2] at h
          exact Option.noConfusion h

theorem processRow_p0_some_nonempty (st : Nat) (it : String)
    (mapping : List (String × Option String)) (cd : List RawRec) (row : TableRow)
    (d : Dataset) (h : (processRow_p0 st it mapping cd row).2.1 = some d) :
    d.data ≠ [] := by
  rcases hm : mapping.lookup (routeDisplayName row.route) with _ | ov
  · simp only [processRow_p0, hm] at h
    exact Option.noConfusion h
  · rcases ov with _ | dataKey
    · simp only [processRow_p0, hm] at h
      exact Option.noConfusion h
    · simp only [processRow_p0, hm] at h
      by_cases h1 : row.current_index = CellVal.str ""
      · rw [if_pos h1] at h
        exact Option.noConfusion h
      · rw [if_neg h1] at h
        by_cases h2 : (List.filter keepPoint
            (List.map (fun item => ChartPoint.mk item.date (item.fields.lookup dataKey)) cd)).length > 0
        · rw [if_pos h2] at h
          have hx := Option.some.inj h
          subst hx
          intro hnil
          exact absurd hnil (List.length_pos.mp h2)
        · rw [if_neg h2] at h
          exact Option.noConfusion h

theorem processRow_p1_empty_skip (st : Nat) (it : String)
    (mapping : List (String × Option String)) (cd : List RawRec) (row : TableRow)
    (hcur : row.current_index = CellVal.str "") :
    (processRow_p1 st it mapping cd row).2.1 = none := by
  rcases hm : mapping.lookup (routeDisplayName row.route) with _ | ov
  · simp only [processRow_p1, hm]
  · rcases ov with _ | dataKey
    · simp only [processRow_p1, hm]
    · simp only [processRow_p1, hm]
      rw [if_pos hcur]

theorem processRow_p0_empty_skip (st : Nat) (it : String)
    (mapping : List (String × Option String)) (cd : List RawRec) (row : TableRow)
    (hcur : row.current_index = CellVal.str "") :
    (processRow_p0 st it mapping cd row).2.1 = none := by
  rcases hm : mapping.lookup (routeDisplayName row.route) with _ | ov
  · simp only [processRow_p0, hm]
  · rcases ov with _ | dataKey
    · simp only [processRow_p0, hm]
    · simp only [processRow_p0, hm]
      rw [if_pos hcur]

theorem buildRows_p1_nonempty (it : String) (mapping : List (String × Option String))
    (cd : List RawRec) :
    ∀ (rows : List TableRow) (st : Nat),
      ∀ d ∈ (buildRows_p1 it mapping cd st rows).1, d.data ≠ [] := by
  intro rows
  induction rows with
  | nil => intro st d hd; simp [buildRows_p1] at hd
  | cons row rest ih =>
      intro st d hd
      simp only [buildRows_p1, List.mem_append] at hd
      rcases hd with h1 | h2
      · rcases ho : (processRow_p1 st it mapping cd row).2.1 with _ | d0
        · rw [ho] at h1; simp at h1
        · rw [ho] at h1
          simp only [Option.toList_some, List.mem_singleton] at h1
          subst h1
          exact processRow_p1_some_nonempty _ _ _ _ _ _ ho
      · exact ih _ _ h2

theorem buildRows_p0_nonempty (it : String) (mapping : List (String × Option String))
    (cd : List RawRec) :
    ∀ (rows : List TableRow) (st : Nat),
      ∀ d ∈ (buildRows_p0 it mapping cd st rows).1, d.data ≠ [] := by
  intro rows
  induction rows with
  | nil => intro st d hd; simp [buildRows_p0] at hd
  | cons row rest ih =>
      intro st d hd
      simp only [buildRows_p0, List.mem_append] at hd
      rcases hd with h1 | h2
      · rcases ho : (processRow_p0 st it mapping cd row).2.1 with _ | d0
        · rw [ho] at h1; simp at h1
        · rw [ho] at h1
          simp only [Option.toList_some, List.mem_singleton] at h1
          subst h1
          exact processRow_p0_some_nonempty _ _ _ _ _ _ ho
      · exact ih _ _ h2

/-- C3: the dataset builder (both variants) never emits a dataset whose
point list is empty, and a row whose `current_index` is the empty string
produces no dataset regardless of the time-series content. -/
theorem datasetBuilder_no_empty_datasets :
    (∀ (indexType : String) (chartData : List RawRec) (tableRows : List TableRow) (st : Nat),
      ∀ d ∈ (createDatasetsFromTableRows_p1 indexType chartData tableRows st).1, d.data ≠ [])
    ∧ (∀ (indexType : String) (chartData : List RawRec) (tableRows : List TableRow) (st : Nat),
      ∀ d ∈ (createDatasetsFromTableRows_p0 indexType chartData tableRows st).1, d.data ≠ [])
    ∧ (∀ (st : Nat) (indexType : String) (mapping : List (String × Option String))
        (chartData : List RawRec) (row : TableRow),
      row.current_index = CellVal.str "" →
      (processRow_p1 st indexType mapping chartData row).2.1 = none)
    ∧ (∀ (st : Nat) (indexType : String) (mapping : List (String × Option String))
        (chartData : List RawRec) (row : TableRow),
      row.current_index = CellVal.str "" →
      (processRow_p0 st indexType mapping chartData row).2.1 = none) := by
  refine ⟨?_, ?_, ?_, ?_⟩
  · intro it cd rows st d hd
    unfold createDatasetsFromTableRows_p1 at hd
    rcases hm : routeToDataKeyMap_p1.lookup it with _ | mapping
    · rw [hm] at hd; simp at hd
    · rw [hm] at hd
      exact buildRows_p1_nonempty it mapping cd rows st d hd
  · intro it cd rows st d hd
    unfold createDatasetsFromTableRows_p0 at hd
    rcases hm : routeToDataKeyMap_p0.lookup it with _ | mapping
    · rw [hm] at hd; simp at hd
    · rw [hm] at hd
      exact buildRows_p0_nonempty it mapping cd rows st d hd
  · intro st it mapping cd row hcur
    exact processRow_p1_empty_skip st it mapping cd row hcur
  · intro st it mapping cd row hcur
    exact processRow_p0_empty_skip st it mapping cd row hcur

/-- An example table row with empty `current_index`, used as the concrete
"intentional skip" input. -/
def kcciRowEmptyIdx : TableRow :=
  ⟨"KCCI_미주서안", CellVal.str "", CellVal.null, ⟨CellVal.null, CellVal.null, CellVal.null⟩⟩

/-- An example time series carrying data for the skipped route (the skip
must happen regardless of content). -/
def kcciExampleSeries : List RawRec :=
  [⟨⟨2024, 1, 5⟩, [("KCCI_미주서안", FieldVal.num 1000)]⟩,
   ⟨⟨2024, 2, 5⟩, [("KCCI_미주서안", FieldVal.num 1100)]⟩]

/-- Witness for C3 at concrete inputs: the empty-`current_index` row
yields no dataset, and the builder output for it has no empty dataset. -/
theorem datasetBuilder_no_empty_datasets_witness :
    kcciRowEmptyIdx.current_index = CellVal.str ""
    ∧ (processRow_p1 0 "KCCI" ((routeToDataKeyMap_p1.lookup "KCCI").getD [])
        kcciExampleSeries kcciRowEmptyIdx).2.1 = none
    ∧ (∀ d ∈ (createDatasetsFromTableRows_p1 "KCCI" kcciExampleSeries [kcciRowEmptyIdx] 0).1,
        d.data ≠ []) :=
  ⟨by decide,
   datasetBuilder_no_empty_datasets.2.2.1 0 "KCCI"
     ((routeToDataKeyMap_p1.lookup "KCCI").getD []) kcciExampleSeries kcciRowEmptyIdx (by decide),
   datasetBuilder_no_empty_datasets.1 "KCCI" kcciExampleSeries [kcciRowEmptyIdx] 0⟩

/-- C4 (amended): a row whose route label resolves to a real data key but
whose `current_index` is the empty string is skipped WITH the logged
warning `No dataKey found or current_index is empty ...` — the skip shares
the warning path of unmapped routes; only an explicit `null` mapping is
skipped without a warning (console.info instead). Both builder variants
behave identically here. -/
theorem emptyCurrentIndex_skip_warns :
    (∀ (st : Nat) (indexType : String) (mapping : List (String × Option String))
        (chartData : List RawRec) (row : TableRow) (dataKey : String),
      mapping.lookup (routeDisplayName row.route) = some (some dataKey) →
      row.current_index = CellVal.str "" →
      processRow_p1 st indexType mapping chartData row
        = (st, none, [LogEvent.warnNoKeyOrEmpty indexType row.route]))
    ∧ (∀ (st : Nat) (indexType : String) (mapping : List (String × Option String))
        (chartData : List RawRec) (row : TableRow) (dataKey : String),
      mapping.lookup (routeDisplayName row.route) = some (some dataKey) →
      row.current_index = CellVal.str "" →
      processRow_p0 st indexType mapping chartData row
        = (st, none, [LogEvent.warnNoKeyOrEmpty indexType row.route])) := by
  constructor
  · intro st it mapping cd row dataKey hm hcur
    simp only [processRow_p1, hm]
    rw [if_pos hcur]
  · intro st it mapping cd row dataKey hm hcur
    simp only [processRow_p0, hm]
    rw [if_pos hcur]

/-- C4 counterexample: the scenario row `{route: "KCCI_미주서안",
current_index: ""}` resolves to a real data key, emits no dataset — and
DOES log a warning (the claim asserts no warning is logged on this path). -/
theorem emptyCurrentIndex_scenario_logs_warning :
    ((routeToDataKeyMap_p1.lookup "KCCI").getD []).lookup (routeDisplayName "KCCI_미주서안")
        = some (some "KCCI_미주서안")
    ∧ processRow_p1 0 "KCCI" ((routeToDataKeyMap_p1.lookup "KCCI").getD [])
        kcciExampleSeries kcciRowEmptyIdx
        = (0, none, [LogEvent.warnNoKeyOrEmpty "KCCI" "KCCI_미주서안"]) := by
  constructor
  · rfl
  · rfl

/-- A second intentional-skip row (resolvable label, empty
`current_index`), used to witness the amended C4 statement. -/
def kcciRowEmptyIdx2 : TableRow :=
  ⟨"KCCI_미주동안", CellVal.str "", CellVal.null, ⟨CellVal.null, CellVal.null, CellVal.null⟩⟩

/-- Witness for the amended C4 at a concrete resolvable row with empty
`current_index`. -/
theorem emptyCurrentIndex_skip_warns_witness :
    ((routeToDataKeyMap_p1.lookup "KCCI").getD []).lookup (routeDisplayName "KCCI_미주동안")
        = some (some "KCCI_미주동안")
    ∧ kcciRowEmptyIdx2.current_index = CellVal.str ""
    ∧ processRow_p1 3 "KCCI" ((routeToDataKeyMap_p1.lookup "KCCI").getD [])
        kcciExampleSeries kcciRowEmptyIdx2
        = (3, none, [LogEvent.warnNoKeyOrEmpty "KCCI" "KCCI_미주동안"]) :=
  ⟨by rfl, by rfl,
   emptyCurrentIndex_skip_warns.1 3 "KCCI" ((routeToDataKeyMap_p1.lookup "KCCI").getD [])
     kcciExampleSeries kcciRowEmptyIdx2 "KCCI_미주동안" (by rfl) (by rfl)⟩

/-! ### Route-key mapper -/

/-- `routeToDataKeyMap[family][label]` in the `part_001` variant: two
plain object lookups, never throwing. `none` is JS `undefined`. -/
def resolve_p1 (family label : String) : Option (Option String) :=
  (routeToDataKeyMap_p1.lookup family).bind (fun m => m.lookup label)

/-- `routeToDataKeyMap[family][label]` in the `part_000` variant. -/
def resolve_p0 (family label : String) : Option (Option String) :=
  (routeToDataKeyMap_p0.lookup family).bind (fun m => m.lookup label)

/-- The declared label set of a family in the `part_001` map. -/
def declaredLabels_p1 (family : String) : List String :=
  ((routeToDataKeyMap_p1.lookup family).getD []).map Prod.fst

/-- The declared label set of a family in the `part_000` map. -/
def declaredLabels_p0 (family : String) : List String :=
  ((routeToDataKeyMap_p0.lookup family).getD []).map Prod.fst

theorem lookup_isSome_iff_mem {β : Type} (l : List (String × β)) (a : String) :
    (l.lookup a).isSome ↔ a ∈ l.map Prod.fst := by
  induction l with
  | nil => simp
  | cons hd tl ih =>
      by_cases hak : a = hd.1
      · simp [List.lookup, hak]
      · have hb : (a == hd.1) = false := beq_false_of_ne hak
        simp [List.lookup, hb, ih, hak]

/-- C6: route-label resolution is a pure total function of the lookup
tables: it yields a value exactly for the declared labels (and `undefined`
for every unknown label), and every declared label maps to its table
entry — in both map variants. Totality (never throwing) is inherent in
the function type. -/
theorem routeKeyMapper_total :
    (∀ family label, (resolve_p1 family label).isSome ↔ label ∈ declaredLabels_p1 family)
    ∧ (∀ family label, (resolve_p0 family label).isSome ↔ label ∈ declaredLabels_p0 family)
    ∧ (∀ fm ∈ routeToDataKeyMap_p1, ∀ p ∈ fm.2, resolve_p1 fm.1 p.1 = some p.2)
    ∧ (∀ fm ∈ routeToDataKeyMap_p0, ∀ p ∈ fm.2, resolve_p0 fm.1 p.1 = some p.2) := by
  refine ⟨?_, ?_, by decide, by decide⟩
  · intro family label
    unfold resolve_p1 declaredLabels_p1
    rcases hf : routeToDataKeyMap_p1.lookup family with _ | m
    · simp
    · simp [lookup_isSome_iff_mem]
  · intro family label
    unfold resolve_p0 declaredLabels_p0
    rcases hf : routeToDataKeyMap_p0.lookup family with _ | m
    · simp
    · simp [lookup_isSome_iff_mem]

/-! ### Monthly aggregation

Two variants: `js/data_aggregation.js` (`_js`, summing, only months
present in the data, sliced to the last `monthsToDisplay`) and `part_000`
lines 152-215 (`_p0`, means, pre-seeded window of the trailing
`numMonths` months). Both start with `data.sort(...)`, an IN-PLACE sort
that mutates the caller's array. -/

/-- The contents of the caller's array after `rawData.sort((a, b) => new
Date(a.date) - new Date(b.date))` (`js/data_aggregation.js:20`,
`part_000:155`, and the per-section `sort` calls in the orchestrators):
the stable date-ascending reordering of the input. -/
def aggregateInputAfterCall (data : List RawRec) : List RawRec :=
  data.insertionSort recLe

/-- data_aggregation.js lines 32-37: when a month entry is created, every
field that is a number on the creating record is initialized to `0`. -/
def initEntryJs (fields : List (String × FieldVal)) : List (String × ℚ) :=
  fields.filterMap (fun kv =>
    match kv.2 with
    | FieldVal.num _ => some (kv.1, (0 : ℚ))
    | FieldVal.null => none)

/-- `currentMonthData[key] = (currentMonthData[key] || 0) + value`:
in-place add-or-append on the month entry object. -/
def setAddJs : List (String × ℚ) → String → ℚ → List (String × ℚ)
  | [], k, q => [(k, q)]
  | (k0, v) :: rest, k, q =>
      if k0 = k then (k0, v + q) :: rest else (k0, v) :: setAddJs rest k q

/-- data_aggregation.js lines 41-49: add every field of `item` that
parses to a number (`parseFloat` of a JSON number succeeds, of `null`
yields `NaN`) into the month entry. -/
def addItemJs (e : List (String × ℚ)) (fields : List (String × FieldVal)) :
    List (String × ℚ) :=
  fields.foldl (fun e kv =>
    match kv.2 with
    | FieldVal.num q => setAddJs e kv.1 q
    | FieldVal.null => e) e

/-- Replace the value of the first occurrence of a key in an association
list (in-place object mutation through a `Map.get` reference). -/
def assocReplace {β : Type} : List (Int × β) → Int → β → List (Int × β)
  | [], _, _ => []
  | (k0, v) :: rest, k, b =>
      if k0 = k then (k0, b) :: rest else (k0, v) :: assocReplace rest k b

/-- Processing of one record by data_aggregation.js lines 24-50: a record
whose month is new appends an initialized entry to the `Map` (JS `Map`s
iterate in insertion order); then the record's numeric fields are added
into the month entry. -/
def monthStepJs (mp : List (Int × List (String × ℚ))) (item : RawRec) :
    List (Int × List (String × ℚ)) :=
  match mp.lookup item.date.lm with
  | none => mp ++ [(item.date.lm, addItemJs (initEntryJs item.fields) item.fields)]
  | some e => assocReplace mp item.date.lm (addItemJs e item.fields)

/-- The `monthlyDataMap` of data_aggregation.js (lines 22-50), keyed by
the month (`YYYY-MM-01`, modelled by its linear month index). -/
def buildMonthMapJs (data : List RawRec) : List (Int × List (String × ℚ)) :=
  data.foldl monthStepJs []

/-- An aggregated month record of data_aggregation.js: the month
(`YYYY-MM-01`, as linear month) plus the summed numeric fields. -/
structure AggRecJs where
  date : Int
  fields : List (String × ℚ)
deriving DecidableEq, Repr

/-- Comparator of the final `sort` in data_aggregation.js line 53
(month-start date strings compare as their months). -/
def aggLeJs (a b : AggRecJs) : Prop := a.date ≤ b.date

instance : DecidableRel aggLeJs := fun a b => by
  unfold aggLeJs; infer_instance

/-- data_aggregation.js line 53: `Array.from(monthlyDataMap.values())`
(insertion order) re-sorted ascending by month date. -/
def jsEntries (data : List RawRec) : List AggRecJs :=
  ((buildMonthMapJs (aggregateInputAfterCall data)).map
    (fun p => AggRecJs.mk p.1 p.2)).insertionSort aggLeJs

/-- data_aggregation.js lines 56-58: `slice(-monthsToDisplay)` keeps only
the last `monthsToDisplay` entries when there are more. -/
def jsSliced (data : List RawRec) (monthsToDisplay : Nat) : List AggRecJs :=
  if (jsEntries data).length > monthsToDisplay then
    (jsEntries data).drop ((jsEntries data).length - monthsToDisplay)
  else jsEntries data

/-- `aggregateDataByMonth` from `js/data_aggregation.js` (lines 14-64).
Returns `(aggregatedData, monthlyLabels)`; month labels are modelled by
their linear month index. -/
def aggregateDataByMonth_js (rawData : List RawRec) (monthsToDisplay : Nat) :
    List AggRecJs × List Int :=
  if rawData.isEmpty then ([], [])
  else (jsSliced rawData monthsToDisplay,
        (jsSliced rawData monthsToDisplay).map AggRecJs.date)

/-- Per-field accumulator `{ sum, count }` of `part_000`'s aggregator. -/
structure MonthStat where
  sum : ℚ
  count : Nat
deriving DecidableEq, Repr

/-- `part_000` lines 181-186: create-or-update the `{sum, count}` cell of
one field in a month entry. -/
def bumpKey : List (String × MonthStat) → String → ℚ → List (String × MonthStat)
  | [], k, q => [(k, ⟨q, 1⟩)]
  | (k0, st) :: rest, k, q =>
      if k0 = k then (k0, ⟨st.sum + q, st.count + 1⟩) :: rest
      else (k0, st) :: bumpKey rest k q

/-- `part_000` lines 179-187: fold the non-null numeric fields of one
record into its month entry. -/
def addItem_p0 (e : List (String × MonthStat)) (fields : List (String × FieldVal)) :
    List (String × MonthStat) :=
  fields.foldl (fun e kv =>
    match kv.2 with
    | FieldVal.num q => bumpKey e kv.1 q
    | FieldVal.null => e) e

/-- Processing of one record by `part_000` lines 170-188: a new month is
registered as an empty entry, then the record's non-null numeric fields
are folded into it. -/
def monthStep_p0 (mp : List (Int × List (String × MonthStat))) (item : RawRec) :
    List (Int × List (String × MonthStat)) :=
  match mp.lookup item.date.lm with
  | none => mp ++ [(item.date.lm, addItem_p0 [] item.fields)]
  | some e => assocReplace mp item.date.lm (addItem_p0 e item.fields)

/-- The `monthlyDataMap` of `part_000` (lines 157-188), keyed by
`YYYY-MM` (linear month). -/
def buildMonthMap_p0 (data : List RawRec) : List (Int × List (String × MonthStat)) :=
  data.foldl monthStep_p0 []

/-- Gregorian leap-year rule, on the JS (proleptic) calendar. -/
def leapYear (y : Int) : Bool :=
  y % 4 == 0 && (y % 100 != 0 || y % 400 == 0)

/-- Days in a month (month is 1-12). -/
def daysInMonth (y : Int) (m : Nat) : Nat :=
  if m = 2 then (if leapYear y then 29 else 28)
  else if m = 4 ∨ m = 6 ∨ m = 9 ∨ m = 11 then 30 else 31

theorem daysInMonth_ge (y : Int) (m : Nat) : 28 ≤ daysInMonth y m := by
  unfold daysInMonth
  split
  · split <;> omega
  · split <;> omega

/-- JS `d.setMonth(k)`: move to month index `k` of `d`'s year (normalized
by floored division), keeping the day; if the day exceeds the target
month's length, the date overflows into the following month (the day
count is at most 31, so it overflows by at most one month). -/
def jsSetMonth (t : Date) (k : Int) : Date :=
  let target := t.y * 12 + k
  let base := Date.ofLm target t.d
  if t.d ≤ daysInMonth base.y base.m then base
  else Date.ofLm (target + 1) (t.d - daysInMonth base.y base.m)

/-- The `while (currentMonth <= latestDate)` loop of `part_000` lines
163-168, collecting month keys from `cur` upward; the fuel equals the
number of loop iterations (proved exact in `collectMonthsAux_eq`). -/
def collectMonthsAux (latest : Date) : Nat → Int → List Int
  | 0, _ => []
  | fuel + 1, cur =>
      if dateLe (Date.ofLm cur 1) latest then cur :: collectMonthsAux latest fuel (cur + 1)
      else []

/-- `allMonthKeys` of `part_000`: month keys from the start month to the
latest record's month. -/
def collectMonths (cur : Int) (latest : Date) : List Int :=
  collectMonthsAux latest (latest.lm + 1 - cur).toNat cur

/-- `part_000` lines 193-198: `allDataKeys` is the non-`date` key set of
the FIRST record of the (sorted-in-place) data array. -/
def allDataKeys_p0 (data : List RawRec) : List String :=
  match (aggregateInputAfterCall data).head? with
  | some r => (r.fields.map Prod.fst).eraseDups
  | none => []

/-- An aggregated month record of `part_000`: every `allDataKeys` field
is present, holding the month's mean or `null`. -/
structure AggRec0 where
  date : Int
  fields : List (String × FieldVal)
deriving DecidableEq, Repr

/-- `part_000` lines 200-212: build one output record for a month key
from the month map (`mean` when `count > 0`, else `null`). -/
def monthOutRec (mp : List (Int × List (String × MonthStat))) (keys : List String)
    (lm : Int) : AggRec0 :=
  AggRec0.mk lm (keys.map (fun k =>
    (k, match (mp.lookup lm).bind (fun e => e.lookup k) with
        | some st => if st.count > 0 then FieldVal.num (st.sum / (st.count : ℚ)) else FieldVal.null
        | none => FieldVal.null)))

/-- `aggregateDataByMonth` from `part_000` (lines 152-215). The `none`
branch of `getLast?` is unreachable (the sorted list of a non-empty list
is non-empty). -/
def aggregateDataByMonth_p0 (data : List RawRec) (numMonths : Nat) :
    List AggRec0 × List Int :=
  if data.isEmpty then ([], [])
  else
    let sorted := aggregateInputAfterCall data
    match sorted.getLast? with
    | none => ([], [])
    | some latestRec =>
        let latest := latestRec.date
        let startDate := jsSetMonth latest (((latest.m : Int) - 1) - ((numMonths : Int) - 1))
        let allMonthKeys := collectMonths startDate.lm latest
        let mp := buildMonthMap_p0 sorted
        let keys := allDataKeys_p0 data
        (allMonthKeys.map (monthOutRec mp keys), allMonthKeys)

/-! ### C9: the aggregator sorts its input in place -/

/-- C9 counterexample: `aggregateDataByMonth` (both variants, line 20 of
`data_aggregation.js` / line 155 of `part_000`) sorts the caller's array
in place, so an input that is not date-ascending is reordered — the
time-series array does NOT keep its original element order. -/
theorem aggregatorReordersInput :
    aggregateInputAfterCall [⟨⟨2024, 2, 1⟩, []⟩, ⟨⟨2024, 1, 1⟩, []⟩]
      ≠ [⟨⟨2024, 2, 1⟩, []⟩, ⟨⟨2024, 1, 1⟩, []⟩]
    ∧ aggregateInputAfterCall [⟨⟨2024, 2, 1⟩, []⟩, ⟨⟨2024, 1, 1⟩, []⟩]
      = [⟨⟨2024, 1, 1⟩, []⟩, ⟨⟨2024, 2, 1⟩, []⟩] := by
  constructor
  · decide
  · decide

/-- C9 (amended): the only mutation of the input time series is the
in-place date sort: after the call the array holds a permutation of the
original records (the records themselves unchanged), and an input that
is already date-ascending is left exactly as it was. -/
theorem aggregateInput_perm_and_sorted_fix (data : List RawRec) :
    (aggregateInputAfterCall data).Perm data
    ∧ (List.Sorted recLe data → aggregateInputAfterCall data = data) :=
  ⟨List.perm_insertionSort recLe data, fun h => List.Sorted.insertionSort_eq h⟩

/-- Witness for the amended C9: a concrete date-sorted series is a
permutation fixed point of the in-place sort. -/
theorem aggregateInput_perm_and_sorted_fix_witness :
    List.Sorted recLe [⟨⟨2024, 1, 1⟩, []⟩, ⟨⟨2024, 2, 1⟩, []⟩]
    ∧ (aggregateInputAfterCall [⟨⟨2024, 1, 1⟩, []⟩, ⟨⟨2024, 2, 1⟩, []⟩]).Perm
        [⟨⟨2024, 1, 1⟩, []⟩, ⟨⟨2024, 2, 1⟩, []⟩]
    ∧ aggregateInputAfterCall [⟨⟨2024, 1, 1⟩, []⟩, ⟨⟨2024, 2, 1⟩, []⟩]
        = [⟨⟨2024, 1, 1⟩, []⟩, ⟨⟨2024, 2, 1⟩, []⟩] :=
  ⟨by decide,
   (aggregateInput_perm_and_sorted_fix _).1,
   (aggregateInput_perm_and_sorted_fix _).2 (by decide)⟩

/-! ### C1: the part_000 month window -/

theorem dateLe_ofLm_iff (cur : Int) (latest : Date) (hd : 1 ≤ latest.d) :
    dateLe (Date.ofLm cur 1) latest ↔ cur ≤ latest.lm := by
  unfold dateLe
  rw [Date.ofLm_lm]
  constructor
  · rintro (h | ⟨h, _⟩) <;> omega
  · intro h
    rcases eq_or_lt_of_le h with he | hl
    · exact Or.inr ⟨he, hd⟩
    · exact Or.inl hl

theorem collectMonthsAux_eq (latest : Date) (hd : 1 ≤ latest.d) :
    ∀ (fuel : Nat) (cur : Int), (latest.lm + 1 - cur).toNat ≤ fuel →
      collectMonthsAux latest fuel cur
        = (List.range (latest.lm + 1 - cur).toNat).map (fun (i : Nat) => cur + (i : Int)) := by
  intro fuel
  induction fuel with
  | zero =>
      intro cur hle
      have h0 : (latest.lm + 1 - cur).toNat = 0 := Nat.le_zero.mp hle
      rw [h0]
      rfl
  | succ f ih =>
      intro cur hle
      by_cases hcur : cur ≤ latest.lm
      · have hguard : dateLe (Date.ofLm cur 1) latest := (dateLe_ofLm_iff cur latest hd).mpr hcur
        have hn : (latest.lm + 1 - cur).toNat = (latest.lm + 1 - (cur + 1)).toNat + 1 := by omega
        rw [collectMonthsAux, if_pos hguard, ih (cur + 1) (by omega), hn,
          List.range_succ_eq_map]
        simp only [List.map_cons, List.map_map, Int.ofNat_zero, add_zero, List.cons.injEq]
        refine ⟨by trivial, ?_⟩
        apply List.map_congr_left
        intro a _
        simp only [Function.comp_apply]
        push_cast
        omega
      · have hguard : ¬ dateLe (Date.ofLm cur 1) latest := by
          rw [dateLe_ofLm_iff cur latest hd]
          omega
        have h0 : (latest.lm + 1 - cur).toNat = 0 := by omega
        rw [collectMonthsAux, if_neg hguard, h0]
        simp

theorem collectMonths_eq (cur : Int) (latest : Date) (hd : 1 ≤ latest.d) :
    collectMonths cur latest
      = (List.range (latest.lm + 1 - cur).toNat).map (fun (i : Nat) => cur + (i : Int)) :=
  collectMonthsAux_eq latest hd _ cur (Nat.le_refl _)

theorem jsSetMonth_lm_of_d_le (t : Date) (k : Int) (hd : t.d ≤ 28) :
    (jsSetMonth t k).lm = t.y * 12 + k := by
  unfold jsSetMonth
  rw [if_pos (Nat.le_trans hd (daysInMonth_ge _ _))]
  exact Date.ofLm_lm _ _

/-- Shape of `aggregateDataByMonth_p0` for non-empty input, exposing the
month-key window and the per-month output records. -/
theorem aggregate_p0_eq (data : List RawRec) (n : Nat) (latestRec : RawRec)
    (hne : data ≠ []) (hlast : (aggregateInputAfterCall data).getLast? = some latestRec) :
    aggregateDataByMonth_p0 data n
      = ((collectMonths
            (jsSetMonth latestRec.date (((latestRec.date.m : Int) - 1) - ((n : Int) - 1))).lm
            latestRec.date).map
          (monthOutRec (buildMonthMap_p0 (aggregateInputAfterCall data)) (allDataKeys_p0 data)),
         collectMonths
           (jsSetMonth latestRec.date (((latestRec.date.m : Int) - 1) - ((n : Int) - 1))).lm
           latestRec.date) := by
  have hemp : data.isEmpty = false := by
    cases data with
    | nil => exact absurd rfl hne
    | cons a l => rfl
  unfold aggregateDataByMonth_p0
  rw [hemp]
  simp only [Bool.false_eq_true, if_false, hlast]

/-- C1 (amended, part_000 variant): for every non-empty input whose
latest record (after the in-place date sort) has a valid day-of-month of
at most 28 — so that JS `setMonth` does not overflow into the next month
— and every `monthsToDisplay ≥ 1`, the output months are exactly the `n`
consecutive calendar months ending at the latest record's month, in
ascending order, and the aggregated array has exactly `n` entries whose
dates are those months. -/
theorem aggregate_p0_window (data : List RawRec) (n : Nat) (latestRec : RawRec)
    (hne : data ≠ []) (hn : 1 ≤ n)
    (hlast : (aggregateInputAfterCall data).getLast? = some latestRec)
    (hd1 : 1 ≤ latestRec.date.d) (hd28 : latestRec.date.d ≤ 28) :
    (aggregateDataByMonth_p0 data n).2
        = (List.range n).map (fun (i : Nat) => latestRec.date.lm - ((n : Int) - 1) + (i : Int))
    ∧ (aggregateDataByMonth_p0 data n).1.map AggRec0.date = (aggregateDataByMonth_p0 data n).2
    ∧ (aggregateDataByMonth_p0 data n).1.length = n := by
  have hsm : (jsSetMonth latestRec.date (((latestRec.date.m : Int) - 1) - ((n : Int) - 1))).lm
      = latestRec.date.lm - ((n : Int) - 1) := by
    rw [jsSetMonth_lm_of_d_le _ _ hd28]
    unfold Date.lm
    omega
  have hcount : (latestRec.date.lm + 1 - (latestRec.date.lm - ((n : Int) - 1))).toNat = n := by
    omega
  have hkeys : collectMonths
      (jsSetMonth latestRec.date (((latestRec.date.m : Int) - 1) - ((n : Int) - 1))).lm
      latestRec.date
      = (List.range n).map (fun (i : Nat) => latestRec.date.lm - ((n : Int) - 1) + (i : Int)) := by
    rw [hsm, collectMonths_eq _ _ hd1, hcount]
  rw [aggregate_p0_eq data n latestRec hne hlast]
  refine ⟨hkeys, ?_, ?_⟩
  · rw [List.map_map]
    have : AggRec0.date ∘ monthOutRec (buildMonthMap_p0 (aggregateInputAfterCall data))
        (allDataKeys_p0 data) = id := by
      funext lm
      rfl
    rw [this, List.map_id]
  · rw [List.length_map, hkeys, List.length_map, List.length_range]

/-- A one-record January series. -/
def exJan : RawRec := ⟨⟨2024, 1, 5⟩, [("A", FieldVal.num 1)]⟩

/-- A one-record March series entry (for a month gap with `exJan`). -/
def exMar : RawRec := ⟨⟨2024, 3, 5⟩, [("A", FieldVal.num 2)]⟩

/-- C1 counterexample: `js/data_aggregation.js`'s `aggregateDataByMonth`
only emits the months PRESENT in the data: a non-empty single-record
input with `monthsToDisplay = 12` yields 1 aggregated entry, not 12, and
a January+March input yields the non-consecutive months Jan, Mar (a gap),
refuting both the length and the no-gaps part of the claim for this
variant. (Linear month 24288 is 2024-01.) -/
theorem aggregateDataByMonth_js_short_window :
    ([exJan] : List RawRec) ≠ []
    ∧ (aggregateDataByMonth_js [exJan] 12).1.length = 1
    ∧ (aggregateDataByMonth_js [exJan] 12).1.length ≠ 12
    ∧ (aggregateDataByMonth_js [exJan, exMar] 12).2 = [24288, 24290] := by
  refine ⟨by decide, by decide, by decide, by decide⟩

/-- A one-record March series with day 10 (no `setMonth` overflow). -/
def exMar10 : RawRec := ⟨⟨2024, 3, 10⟩, [("A", FieldVal.num 4)]⟩

/-- Witness for the amended C1 at a concrete input: one March 2024 record,
`monthsToDisplay = 3`, gives the three consecutive months 2024-01,
2024-02, 2024-03 (linear months 24288, 24289, 24290). -/
theorem aggregate_p0_window_witness :
    ([exMar10] : List RawRec) ≠ []
    ∧ (1 : Nat) ≤ 3
    ∧ (aggregateInputAfterCall [exMar10]).getLast? = some exMar10
    ∧ 1 ≤ exMar10.date.d ∧ exMar10.date.d ≤ 28
    ∧ ((aggregateDataByMonth_p0 [exMar10] 3).2
          = (List.range 3).map (fun (i : Nat) => exMar10.date.lm - ((3 : Int) - 1) + (i : Int))
        ∧ (aggregateDataByMonth_p0 [exMar10] 3).1.map AggRec0.date
            = (aggregateDataByMonth_p0 [exMar10] 3).2
        ∧ (aggregateDataByMonth_p0 [exMar10] 3).1.length = 3)
    ∧ (aggregateDataByMonth_p0 [exMar10] 3).2 = [24288, 24289, 24290] :=
  ⟨by decide, by decide, by decide, by decide, by decide,
   aggregate_p0_window [exMar10] 3 exMar10 (by decide) (by decide) (by decide)
     (by decide) (by decide),
   by decide⟩

/-! ### C2: association-list bookkeeping lemmas -/

theorem lookup_append_int {β : Type} (l1 l2 : List (Int × β)) (a : Int) :
    (l1 ++ l2).lookup a
      = (match l1.lookup a with
         | some b => some b
         | none => l2.lookup a) := by
  induction l1 with
  | nil => simp
  | cons hd tl ih =>
      rcases hd with ⟨k, v⟩
      by_cases hk : a = k
      · simp [List.lookup, hk]
      · have hb : (a == k) = false := beq_false_of_ne hk
        simp [List.lookup, hb, ih]

theorem lookup_mem_int {β : Type} (l : List (Int × β)) (a : Int) (b : β)
    (h : l.lookup a = some b) : (a, b) ∈ l := by
  induction l with
  | nil => simp [List.lookup] at h
  | cons hd tl ih =>
      rcases hd with ⟨k, v⟩
      by_cases hk : a = k
      · subst hk
        simp [List.lookup] at h
        subst h
        exact List.mem_cons_self _ _
      · have hb : (a == k) = false := beq_false_of_ne hk
        simp [List.lookup, hb] at h
        exact List.mem_cons_of_mem _ (ih h)

theorem assocReplace_lookup_self {β : Type} (mp : List (Int × β)) (a : Int) (b e : β)
    (h : mp.lookup a = some e) : (assocReplace mp a b).lookup a = some b := by
  induction mp with
  | nil => simp [List.lookup] at h
  | cons hd tl ih =>
      rcases hd with ⟨k, v⟩
      by_cases hk : k = a
      · subst hk
        simp [assocReplace, List.lookup]
      · rw [assocReplace, if_neg hk]
        have hb : (a == k) = false := beq_false_of_ne (fun hak => hk hak.symm)
        simp only [List.lookup, hb] at h ⊢
        exact ih h

theorem assocReplace_lookup_ne {β : Type} (mp : List (Int × β)) (a : Int) (b : β)
    (x : Int) (hx : x ≠ a) : (assocReplace mp a b).lookup x = mp.lookup x := by
  induction mp with
  | nil => simp [assocReplace]
  | cons hd tl ih =>
      rcases hd with ⟨k, v⟩
      by_cases hk : k = a
      · subst hk
        rw [assocReplace, if_pos rfl]
        have hb : (x == k) = false := beq_false_of_ne hx
        simp [List.lookup, hb]
      · rw [assocReplace, if_neg hk]
        by_cases hxk : x = k
        · simp [List.lookup, hxk]
        · have hb : (x == k) = false := beq_false_of_ne hxk
          simp [List.lookup, hb, ih]

theorem assocReplace_mem {β : Type} (mp : List (Int × β)) (a : Int) (b : β)
    (p : Int × β) (hp : p ∈ assocReplace mp a b) : p ∈ mp ∨ p = (a, b) := by
  induction mp with
  | nil => simp [assocReplace] at hp
  | cons hd tl ih =>
      rcases hd with ⟨k, v⟩
      by_cases hk : k = a
      · subst hk
        rw [assocReplace, if_pos rfl] at hp
        rcases List.mem_cons.mp hp with h1 | h2
        · exact Or.inr h1
        · exact Or.inl (List.mem_cons_of_mem _ h2)
      · rw [assocReplace, if_neg hk] at hp
        rcases List.mem_cons.mp hp with h1 | h2
        · exact Or.inl (h1 ▸ List.mem_cons_self _ _)
        · rcases ih h2 with h3 | h3
          · exact Or.inl (List.mem_cons_of_mem _ h3)
          · exact Or.inr h3

theorem lookup_map_self {β : Type} (keys : List String) (f : String → β) (k : String)
    (hk : k ∈ keys) : (keys.map (fun x => (x, f x))).lookup k = some (f k) := by
  induction keys with
  | nil => simp at hk
  | cons a rest ih =>
      by_cases hka : k = a
      · subst hka
        simp [List.lookup]
      · have hb : (k == a) = false := beq_false_of_ne hka
        rcases List.mem_cons.mp hk with h1 | h2
        · exact absurd h1 hka
        · simp [List.lookup, hb, ih h2]

/-- No record of `data` falling in month `lm` carries a numeric value for
field `k` (its occurrences of `k`, if any, are all `null`). -/
def noContribAt (data : List RawRec) (lm : Int) (k : String) : Prop :=
  ∀ r ∈ data, r.date.lm = lm → ∀ kv ∈ r.fields, kv.1 = k → kv.2 = FieldVal.null

theorem bumpKey_lookup_isSome (e : List (String × MonthStat)) (k0 k : String) (q : ℚ)
    (h : ((bumpKey e k0 q).lookup k).isSome) : k = k0 ∨ (e.lookup k).isSome := by
  induction e with
  | nil =>
      by_cases hk : k = k0
      · exact Or.inl hk
      · have hb : (k == k0) = false := beq_false_of_ne hk
        simp [bumpKey, List.lookup, hb] at h
  | cons hd tl ih =>
      rcases hd with ⟨a, stv⟩
      by_cases h0 : a = k0
      · rw [bumpKey, if_pos h0] at h
        by_cases hk : k = a
        · subst hk
          simp [List.lookup]
        · have hb : (k == a) = false := beq_false_of_ne hk
          simp only [List.lookup, hb] at h
          exact Or.inr (by simp [List.lookup, hb, h])
      · rw [bumpKey, if_neg h0] at h
        by_cases hk : k = a
        · subst hk
          simp [List.lookup]
        · have hb : (k == a) = false := beq_false_of_ne hk
          simp only [List.lookup, hb] at h
          rcases ih h with h1 | h2
          · exact Or.inl h1
          · exact Or.inr (by simp [List.lookup, hb, h2])

theorem addItem_p0_lookup_isSome (fields : List (String × FieldVal)) :
    ∀ (e : List (String × MonthStat)) (k : String),
      ((addItem_p0 e fields).lookup k).isSome →
      (e.lookup k).isSome ∨ ∃ q, (k, FieldVal.num q) ∈ fields := by
  induction fields with
  | nil =>
      intro e k h
      exact Or.inl h
  | cons kv rest ih =>
      intro e k h
      rcases hv : kv.2 with _ | q
      · have h' : ((addItem_p0 e rest).lookup k).isSome := by
          unfold addItem_p0 at h ⊢
          rw [List.foldl_cons, hv] at h
          exact h
        rcases ih e k h' with h1 | ⟨q2, hq⟩
        · exact Or.inl h1
        · exact Or.inr ⟨q2, List.mem_cons_of_mem _ hq⟩
      · have h' : ((addItem_p0 (bumpKey e kv.1 q) rest).lookup k).isSome := by
          unfold addItem_p0 at h ⊢
          rw [List.foldl_cons, hv] at h
          exact h
        rcases ih (bumpKey e kv.1 q) k h' with h1 | ⟨q2, hq⟩
        · rcases bumpKey_lookup_isSome e kv.1 k q h1 with hk | h2
          · refine Or.inr ⟨q, ?_⟩
            rw [hk, ← hv]
            exact List.mem_cons_self _ _
          · exact Or.inl h2
        · exact Or.inr ⟨q2, List.mem_cons_of_mem _ hq⟩

theorem monthStep_p0_sound (mp : List (Int × List (String × MonthStat))) (item : RawRec)
    (lm : Int) (e : List (String × MonthStat)) (k : String)
    (hlook : (monthStep_p0 mp item).lookup lm = some e) (hk : (e.lookup k).isSome) :
    (∃ e0, mp.lookup lm = some e0 ∧ (e0.lookup k).isSome)
    ∨ (item.date.lm = lm ∧ ∃ q, (k, FieldVal.num q) ∈ item.fields) := by
  unfold monthStep_p0 at hlook
  rcases hm : mp.lookup item.date.lm with _ | e1
  · rw [hm] at hlook
    rw [lookup_append_int] at hlook
    rcases happ : mp.lookup lm with _ | e0
    · rw [happ] at hlook
      by_cases hl : lm = item.date.lm
      · have hb : (lm == item.date.lm) = true := beq_iff_eq.mpr hl
        simp only [List.lookup, hb, Option.some.injEq] at hlook
        subst hlook
        rcases addItem_p0_lookup_isSome item.fields [] k hk with h1 | h2
        · simp [List.lookup] at h1
        · exact Or.inr ⟨hl.symm, h2⟩
      · have hb : (lm == item.date.lm) = false := beq_false_of_ne hl
        simp [List.lookup, hb] at hlook
    · rw [happ] at hlook
      have he : e0 = e := by simpa using hlook
      refine Or.inl ⟨e0, rfl, ?_⟩
      rw [he]
      exact hk
  · rw [hm] at hlook
    by_cases hl : lm = item.date.lm
    · subst hl
      rw [assocReplace_lookup_self mp item.date.lm _ e1 hm] at hlook
      simp only [Option.some.injEq] at hlook
      subst hlook
      rcases addItem_p0_lookup_isSome item.fields e1 k hk with h1 | h2
      · exact Or.inl ⟨e1, hm, h1⟩
      · exact Or.inr ⟨rfl, h2⟩
    · rw [assocReplace_lookup_ne mp item.date.lm _ lm hl] at hlook
      exact Or.inl ⟨e, hlook, hk⟩

theorem foldSteps_p0_sound :
    ∀ (ds : List RawRec) (mp : List (Int × List (String × MonthStat))) (lm : Int)
      (e : List (String × MonthStat)) (k : String),
      (ds.foldl monthStep_p0 mp).lookup lm = some e → (e.lookup k).isSome →
      (∃ e0, mp.lookup lm = some e0 ∧ (e0.lookup k).isSome)
      ∨ ∃ r, r ∈ ds ∧ r.date.lm = lm ∧ ∃ q, (k, FieldVal.num q) ∈ r.fields := by
  intro ds
  induction ds with
  | nil =>
      intro mp lm e k h hk
      exact Or.inl ⟨e, h, hk⟩
  | cons it rest ih =>
      intro mp lm e k h hk
      rw [List.foldl_cons] at h
      rcases ih (monthStep_p0 mp it) lm e k h hk with ⟨e0, he0, hke0⟩ | ⟨r, hr, hlm, hq⟩
      · rcases monthStep_p0_sound mp it lm e0 k he0 hke0 with h1 | ⟨hlm, hq⟩
        · exact Or.inl h1
        · exact Or.inr ⟨it, List.mem_cons_self _ _, hlm, hq⟩
      · exact Or.inr ⟨r, List.mem_cons_of_mem _ hr, hlm, hq⟩

theorem buildMonthMap_p0_sound (data : List RawRec) (lm : Int)
    (e : List (String × MonthStat)) (k : String)
    (h : (buildMonthMap_p0 data).lookup lm = some e) (hk : (e.lookup k).isSome) :
    ∃ r, r ∈ data ∧ r.date.lm = lm ∧ ∃ q, (k, FieldVal.num q) ∈ r.fields := by
  rcases foldSteps_p0_sound data [] lm e k h hk with ⟨e0, he0, _⟩ | hok
  · simp [List.lookup] at he0
  · exact hok

theorem setAddJs_lookup_isSome (e : List (String × ℚ)) (k0 k : String) (q : ℚ)
    (h : ((setAddJs e k0 q).lookup k).isSome) : k = k0 ∨ (e.lookup k).isSome := by
  induction e with
  | nil =>
      by_cases hk : k = k0
      · exact Or.inl hk
      · have hb : (k == k0) = false := beq_false_of_ne hk
        simp [setAddJs, List.lookup, hb] at h
  | cons hd tl ih =>
      rcases hd with ⟨a, v⟩
      by_cases h0 : a = k0
      · rw [setAddJs, if_pos h0] at h
        by_cases hk : k = a
        · subst hk
          simp [List.lookup]
        · have hb : (k == a) = false := beq_false_of_ne hk
          simp only [List.lookup, hb] at h
          exact Or.inr (by simp [List.lookup, hb, h])
      · rw [setAddJs, if_neg h0] at h
        by_cases hk : k = a
        · subst hk
          simp [List.lookup]
        · have hb : (k == a) = false := beq_false_of_ne hk
          simp only [List.lookup, hb] at h
          rcases ih h with h1 | h2
          · exact Or.inl h1
          · exact Or.inr (by simp [List.lookup, hb, h2])

theorem initEntryJs_lookup_isSome (fields : List (String × FieldVal)) (k : String)
    (h : ((initEntryJs fields).lookup k).isSome) : ∃ q, (k, FieldVal.num q) ∈ fields := by
  induction fields with
  | nil => simp [initEntryJs, List.lookup] at h
  | cons kv rest ih =>
      rcases hv : kv.2 with _ | q
      · have h' : ((initEntryJs rest).lookup k).isSome := by
          unfold initEntryJs at h ⊢
          simp only [List.filterMap_cons, hv] at h
          exact h
        rcases ih h' with ⟨q2, hq⟩
        exact ⟨q2, List.mem_cons_of_mem _ hq⟩
      · unfold initEntryJs at h
        simp only [List.filterMap_cons, hv] at h
        by_cases hk : k = kv.1
        · refine ⟨q, ?_⟩
          rw [hk, ← hv]
          exact List.mem_cons_self _ _
        · have hb : (k == kv.1) = false := beq_false_of_ne hk
          simp only [List.lookup, hb] at h
          rcases ih (by unfold initEntryJs; exact h) with ⟨q2, hq⟩
          exact ⟨q2, List.mem_cons_of_mem _ hq⟩

theorem addItemJs_lookup_isSome (fields : List (String × FieldVal)) :
    ∀ (e : List (String × ℚ)) (k : String),
      ((addItemJs e fields).lookup k).isSome →
      (e.lookup k).isSome ∨ ∃ q, (k, FieldVal.num q) ∈ fields := by
  induction fields with
  | nil =>
      intro e k h
      exact Or.inl h
  | cons kv rest ih =>
      intro e k h
      rcases hv : kv.2 with _ | q
      · have h' : ((addItemJs e rest).lookup k).isSome := by
          unfold addItemJs at h ⊢
          rw [List.foldl_cons, hv] at h
          exact h
        rcases ih e k h' with h1 | ⟨q2, hq⟩
        · exact Or.inl h1
        · exact Or.inr ⟨q2, List.mem_cons_of_mem _ hq⟩
      · have h' : ((addItemJs (setAddJs e kv.1 q) rest).lookup k).isSome := by
          unfold addItemJs at h ⊢
          rw [List.foldl_cons, hv] at h
          exact h
        rcases ih (setAddJs e kv.1 q) k h' with h1 | ⟨q2, hq⟩
        · rcases setAddJs_lookup_isSome e kv.1 k q h1 with hk | h2
          · refine Or.inr ⟨q, ?_⟩
            rw [hk, ← hv]
            exact List.mem_cons_self _ _
          · exact Or.inl h2
        · exact Or.inr ⟨q2, List.mem_cons_of_mem _ hq⟩

theorem monthStepJs_mem_sound (mp : List (Int × List (String × ℚ))) (item : RawRec)
    (p : Int × List (String × ℚ)) (hp : p ∈ monthStepJs mp item) (k : String)
    (hk : ((p.2).lookup k).isSome) :
    (∃ p0, p0 ∈ mp ∧ p0.1 = p.1 ∧ ((p0.2).lookup k).isSome)
    ∨ (p.1 = item.date.lm ∧ ∃ q, (k, FieldVal.num q) ∈ item.fields) := by
  unfold monthStepJs at hp
  rcases hm : mp.lookup item.date.lm with _ | e1
  · rw [hm] at hp
    rcases List.mem_append.mp hp with h1 | h2
    · exact Or.inl ⟨p, h1, rfl, hk⟩
    · have hpe : p = (item.date.lm, addItemJs (initEntryJs item.fields) item.fields) := by
        simpa using h2
      subst hpe
      rcases addItemJs_lookup_isSome item.fields (initEntryJs item.fields) k hk with h3 | h4
      · rcases initEntryJs_lookup_isSome item.fields k h3 with ⟨q, hq⟩
        exact Or.inr ⟨rfl, q, hq⟩
      · exact Or.inr ⟨rfl, h4⟩
  · rw [hm] at hp
    rcases assocReplace_mem mp item.date.lm _ p hp with h1 | h2
    · exact Or.inl ⟨p, h1, rfl, hk⟩
    · subst h2
      rcases addItemJs_lookup_isSome item.fields e1 k hk with h3 | h4
      · exact Or.inl ⟨(item.date.lm, e1), lookup_mem_int mp item.date.lm e1 hm, rfl, h3⟩
      · exact Or.inr ⟨rfl, h4⟩

theorem foldStepsJs_sound :
    ∀ (ds : List RawRec) (mp : List (Int × List (String × ℚ)))
      (p : Int × List (String × ℚ)) (k : String),
      p ∈ ds.foldl monthStepJs mp → ((p.2).lookup k).isSome →
      (∃ p0, p0 ∈ mp ∧ p0.1 = p.1 ∧ ((p0.2).lookup k).isSome)
      ∨ ∃ r, r ∈ ds ∧ r.date.lm = p.1 ∧ ∃ q, (k, FieldVal.num q) ∈ r.fields := by
  intro ds
  induction ds with
  | nil =>
      intro mp p k hp hk
      exact Or.inl ⟨p, hp, rfl, hk⟩
  | cons it rest ih =>
      intro mp p k hp hk
      rw [List.foldl_cons] at hp
      rcases ih (monthStepJs mp it) p k hp hk with ⟨p0, hp0, hfst, hk0⟩ | ⟨r, hr, hlm, hq⟩
      · rcases monthStepJs_mem_sound mp it p0 hp0 k hk0 with ⟨p1, hp1, hfst1, hk1⟩ | ⟨hlm, hq⟩
        · exact Or.inl ⟨p1, hp1, hfst1.trans hfst, hk1⟩
        · exact Or.inr ⟨it, List.mem_cons_self _ _, (hlm.symm.trans hfst : it.date.lm = p.1), hq⟩
      · exact Or.inr ⟨r, List.mem_cons_of_mem _ hr, hlm, hq⟩

theorem buildMonthMapJs_sound (data : List RawRec) (p : Int × List (String × ℚ))
    (hp : p ∈ buildMonthMapJs data) (k : String) (hk : ((p.2).lookup k).isSome) :
    ∃ r, r ∈ data ∧ r.date.lm = p.1 ∧ ∃ q, (k, FieldVal.num q) ∈ r.fields := by
  rcases foldStepsJs_sound data [] p k hp hk with ⟨p0, hp0, _, _⟩ | hok
  · simp at hp0
  · exact hok

instance (data : List RawRec) (lm : Int) (k : String) : Decidable (noContribAt data lm k) := by
  unfold noContribAt
  infer_instance

theorem aggregate_p0_noContrib_null (data : List RawRec) (n : Nat) (k : String) (lm : Int)
    (hkk : k ∈ allDataKeys_p0 data) (hnc : noContribAt data lm k) :
    ∀ rec ∈ (aggregateDataByMonth_p0 data n).1, rec.date = lm →
      rec.fields.lookup k = some FieldVal.null := by
  intro rec hrec hdate
  by_cases hne : data = []
  · subst hne
    simp [aggregateDataByMonth_p0] at hrec
  · have hsne : aggregateInputAfterCall data ≠ [] := by
      intro hcontra
      have hperm : (aggregateInputAfterCall data).Perm data := List.perm_insertionSort recLe data
      rw [hcontra] at hperm
      exact hne (List.Perm.eq_nil hperm.symm)
    obtain ⟨latestRec, hlast⟩ : ∃ lr, (aggregateInputAfterCall data).getLast? = some lr := by
      rcases hgl : (aggregateInputAfterCall data).getLast? with _ | lr
      · exact absurd (List.getLast?_eq_none_iff.mp hgl) hsne
      · exact ⟨lr, rfl⟩
    rw [aggregate_p0_eq data n latestRec hne hlast] at hrec
    rcases List.mem_map.mp hrec with ⟨lmKey, hlmKey, hrec_eq⟩
    subst hrec_eq
    have hdate' : lmKey = lm := hdate
    subst hdate'
    simp only [monthOutRec]
    rw [lookup_map_self (allDataKeys_p0 data) _ k hkk]
    rcases hb : ((buildMonthMap_p0 (aggregateInputAfterCall data)).lookup lmKey).bind
        (fun e => e.lookup k) with _ | st
    · rfl
    · exfalso
      obtain ⟨e, he, hke⟩ := Option.bind_eq_some.mp hb
      have hsome : (e.lookup k).isSome := by rw [hke]; rfl
      obtain ⟨r, hr, hrlm, q, hqm⟩ := buildMonthMap_p0_sound _ lmKey e k he hsome
      have hrdata : r ∈ data := (List.mem_insertionSort recLe).mp hr
      have hnull := hnc r hrdata hrlm (k, FieldVal.num q) hqm rfl
      exact FieldVal.noConfusion hnull

theorem aggregate_js_noContrib_absent (data : List RawRec) (n : Nat) (k : String) (lm : Int)
    (hnc : noContribAt data lm k) :
    ∀ rec ∈ (aggregateDataByMonth_js data n).1, rec.date = lm →
      rec.fields.lookup k = none := by
  intro rec hrec hdate
  by_cases hne : data.isEmpty
  · unfold aggregateDataByMonth_js at hrec
    rw [if_pos hne] at hrec
    simp at hrec
  · unfold aggregateDataByMonth_js at hrec
    rw [if_neg hne] at hrec
    have hrec1 : rec ∈ jsSliced data n := hrec
    have hrec2 : rec ∈ jsEntries data := by
      unfold jsSliced at hrec1
      by_cases hlen : (jsEntries data).length > n
      · rw [if_pos hlen] at hrec1
        exact List.mem_of_mem_drop hrec1
      · rw [if_neg hlen] at hrec1
        exact hrec1
    unfold jsEntries at hrec2
    have hrec3 := (List.mem_insertionSort aggLeJs).mp hrec2
    rcases List.mem_map.mp hrec3 with ⟨p, hp, heq⟩
    rcases hlk : p.2.lookup k with _ | v
    · rw [← heq]
      exact hlk
    · exfalso
      have hsome : (p.2.lookup k).isSome := by rw [hlk]; rfl
      obtain ⟨r, hr, hrlm, q, hqm⟩ := buildMonthMapJs_sound _ p hp k hsome
      have hrdata : r ∈ data := (List.mem_insertionSort recLe).mp hr
      have hplm : p.1 = lm := by
        rw [← heq] at hdate
        exact hdate
      rw [hplm] at hrlm
      have hnull := hnc r hrdata hrlm (k, FieldVal.num q) hqm rfl
      exact FieldVal.noConfusion hnull

/-- C2 (amended): in the `part_000` aggregator, every field of the
declared key set (the non-`date` keys of the FIRST record of the sorted
array) whose values in a given output month are all absent or `null`
comes out as `null` for that month — never `0`. In the
`data_aggregation.js` variant (and for fields outside `allDataKeys` in
`part_000`), such a field is instead entirely ABSENT (`undefined`) from
the aggregated month record — also never `0`, but not `null` either. -/
theorem aggregator_noContrib_null_or_absent :
    (∀ (data : List RawRec) (n : Nat) (k : String) (lm : Int),
      k ∈ allDataKeys_p0 data → noContribAt data lm k →
      ∀ rec ∈ (aggregateDataByMonth_p0 data n).1, rec.date = lm →
        rec.fields.lookup k = some FieldVal.null)
    ∧ (∀ (data : List RawRec) (n : Nat) (k : String) (lm : Int),
      noContribAt data lm k →
      ∀ rec ∈ (aggregateDataByMonth_js data n).1, rec.date = lm →
        rec.fields.lookup k = none) :=
  ⟨aggregate_p0_noContrib_null, aggregate_js_noContrib_absent⟩

/-- February record with a `null` "A" and a numeric "B". -/
def exFebAB : RawRec := ⟨⟨2024, 2, 5⟩, [("A", FieldVal.null), ("B", FieldVal.num 1)]⟩

/-- C2 counterexample: with records Jan `{A: 1}` and Feb `{A: null, B: 1}`,
field "A" has no non-null contribution in February, yet the February
aggregated record of `data_aggregation.js` holds NO "A" binding at all
(`undefined`, `none`) — not `null`; and in `part_000` field "B" (absent
from the first record, hence outside `allDataKeys`) is missing from every
aggregated record, including January's — again `undefined`, not `null`. -/
theorem aggregator_absent_not_null :
    ((aggregateDataByMonth_js [exJan, exFebAB] 12).1.getLast?).map
        (fun r => (r.date, r.fields.lookup "A")) = some (24289, none)
    ∧ ((aggregateDataByMonth_p0 [exJan, exFebAB] 2).1.head?).map
        (fun r => (r.date, r.fields.lookup "B")) = some (24288, none) := by
  constructor
  · decide
  · decide

/-- January and February records for the "B"-null witness. -/
def exB1 : RawRec := ⟨⟨2024, 1, 10⟩, [("B", FieldVal.num 2)]⟩

/-- February record whose only "B" occurrence is `null`. -/
def exB2 : RawRec := ⟨⟨2024, 2, 10⟩, [("B", FieldVal.null)]⟩

/-- Witness for the amended C2 at concrete inputs (linear month 24289 is
2024-02). -/
theorem aggregator_noContrib_null_or_absent_witness :
    "B" ∈ allDataKeys_p0 [exB1, exB2]
    ∧ noContribAt [exB1, exB2] 24289 "B"
    ∧ (∀ rec ∈ (aggregateDataByMonth_p0 [exB1, exB2] 2).1, rec.date = 24289 →
        rec.fields.lookup "B" = some FieldVal.null)
    ∧ noContribAt [exJan, exFebAB] 24289 "A"
    ∧ (∀ rec ∈ (aggregateDataByMonth_js [exJan, exFebAB] 12).1, rec.date = 24289 →
        rec.fields.lookup "A" = none) :=
  ⟨by decide, by decide,
   aggregator_noContrib_null_or_absent.1 [exB1, exB2] 2 "B" 24289 (by decide) (by decide),
   by decide,
   aggregator_noContrib_null_or_absent.2 [exJan, exFebAB] 12 "A" 24289 (by decide)⟩

/-! ### C7: table renderer placeholder conditions

The rendered result is modelled at the granularity the claim needs:
either the single "no data" placeholder paragraph, or a `<table>` built
from the given headers and rows (per-cell formatting is downstream of the
branch under study and is not modelled). -/

/-- Rendered output of `renderTable`: the "no data" placeholder, or a
table carrying the headers and rows it renders. -/
inductive TableRenderOut where
  | placeholder : TableRenderOut
  | table (headers : List String) (rows : List TableRow) : TableRenderOut
deriving DecidableEq, Repr

/-- `renderTable` from `js/table_renderer.js` (lines 11-60): the guard at
lines 19-22 checks ONLY `rows` (`!rows || rows.length === 0`); `headers`
is not inspected before the table is built. -/
def renderTable_js (headers : List String) (rows : List TableRow) : TableRenderOut :=
  if rows.isEmpty then TableRenderOut.placeholder
  else TableRenderOut.table headers rows

/-- `renderTable` from `part_000` (lines 273-335): the guard at line 282
checks both `headers` and `rows`. -/
def renderTable_p0 (headers : List String) (rows : List TableRow) : TableRenderOut :=
  if headers.isEmpty || rows.isEmpty then TableRenderOut.placeholder
  else TableRenderOut.table headers rows

/-- A sample table row (all-null cells, any content works here). -/
def exRowC7 : TableRow :=
  ⟨"KCCI_유럽", CellVal.null, CellVal.null, ⟨CellVal.null, CellVal.null, CellVal.null⟩⟩

/-- C7 counterexample: `js/table_renderer.js`'s `renderTable`, called
with an empty header list and a non-empty row list, renders a table (with
an empty header row) — not the "no data" placeholder the claim requires. -/
theorem renderTable_js_empty_headers_renders_table :
    renderTable_js [] [exRowC7] ≠ TableRenderOut.placeholder
    ∧ renderTable_js [] [exRowC7] = TableRenderOut.table [] [exRowC7] := by
  constructor
  · decide
  · decide

/-- C7 (amended): `part_000`'s `renderTable` renders the single "no data"
placeholder whenever `headers` or `rows` is empty, as claimed; the
`js/table_renderer.js` variant tests only `rows` — it renders the
placeholder exactly when `rows` is empty, and with non-empty `rows` it
renders a table even when `headers` is empty. -/
theorem renderTable_placeholder_conditions :
    (∀ (headers : List String) (rows : List TableRow),
      headers = [] ∨ rows = [] → renderTable_p0 headers rows = TableRenderOut.placeholder)
    ∧ (∀ (headers : List String) (rows : List TableRow),
      rows = [] → renderTable_js headers rows = TableRenderOut.placeholder)
    ∧ (∀ (headers : List String) (rows : List TableRow),
      rows ≠ [] → renderTable_js headers rows = TableRenderOut.table headers rows) := by
  refine ⟨?_, ?_, ?_⟩
  · intro headers rows h
    rcases h with h | h <;> subst h <;> simp [renderTable_p0]
  · intro headers rows h
    subst h
    simp [renderTable_js]
  · intro headers rows h
    have he : rows.isEmpty = false := by
      cases rows with
      | nil => exact absurd rfl h
      | cons a l => rfl
    simp [renderTable_js, he]

/-- Witness for the amended C7 at concrete inputs. -/
theorem renderTable_placeholder_conditions_witness :
    (([] : List String) = [] ∨ ([exRowC7] : List TableRow) = [])
    ∧ renderTable_p0 [] [exRowC7] = TableRenderOut.placeholder
    ∧ renderTable_js ["Route"] [] = TableRenderOut.placeholder
    ∧ ([exRowC7] : List TableRow) ≠ []
    ∧ renderTable_js [] [exRowC7] = TableRenderOut.table [] [exRowC7] :=
  ⟨Or.inl rfl,
   renderTable_placeholder_conditions.1 [] [exRowC7] (Or.inl rfl),
   renderTable_placeholder_conditions.2.1 ["Route"] [] rfl,
   by decide,
   renderTable_placeholder_conditions.2.2 [] [exRowC7] (by decide)⟩

end OptiSign
